import Mathlib

/-!
Verification of the `hello-cli` greeting utility (a TypeScript CLI template).

The development shallowly embeds the two source modules of the program:

* `src/logic.ts` — the pure greeting engine: the `Language` enumeration,
  the `NameSchema` / `LanguageSchema` zod validators, `getTimeOfDay`, and
  `createGreeting`.
* `src/index.ts` — the CLI layer: the `LanguageType` cmd-ts decoder, the
  interactive prompt helpers `askName` / `askLanguage`, the command
  `handler`, and the exit-code behaviour of the entry point.

Timestamps are modelled as calendar records (`DateTime`); the `date-fns` accessor
`getHours` projects out the hour-of-day field.  Asynchronous results are
modelled by their settled values: a resolved promise is a returned value, a
rejected promise is a `thrown` message.  Process termination
(`process.exit(c)`) is an explicit `exited c` result, and normal handler
completion is a `completed` outcome (the Node process then exits with
code 0).  User interaction and the logging side effect are injected through
an environment record, mirroring how the code receives them from its
collaborators (`@clack/prompts`, `execa`).
-/

namespace HelloCli

/-- The `LANGUAGE` object-as-enum from `src/constants.ts`: values "en", "ja", "es". -/
inductive Language
  | en
  | ja
  | es
deriving DecidableEq, Repr

/-- The `APP_NAME` constant from `src/constants.ts`. -/
def APP_NAME : String := "hello-cli"

/-- A timestamp, as the fields a JavaScript `Date` exposes to `date-fns`
accessors.  `hour` is the hour-of-day in `[0,23]` for real dates; the other
fields let us state that the greeting logic ignores them. -/
structure DateTime where
  year : Nat
  month : Nat
  day : Nat
  hour : Nat
  minute : Nat
  second : Nat
deriving DecidableEq, Repr

/-- Embeds `getHours` from `date-fns`: the local hour-of-day of a date. -/
def getHours (date : DateTime) : Nat := date.hour

/-- The `TimeOfDay` union type from `src/logic.ts`. -/
inductive TimeOfDay
  | morning
  | day
  | evening
deriving DecidableEq, Repr

/-- Embeds `getTimeOfDay` (src/logic.ts): classifies the hour with a `ts-pattern`
match — `h < 12` gives morning, then `h < 18` gives day, otherwise evening. -/
def getTimeOfDay (date : DateTime) : TimeOfDay :=
  let hour := getHours date
  if hour < 12 then .morning
  else if hour < 18 then .day
  else .evening

/-- Embeds `NameSchema.safeParse` (src/logic.ts): `z.string().min(1)` succeeds
exactly when the length of the string is at least 1, returning the parsed
string; on failure the configured issue text is "Name cannot be empty". -/
def NameSchema_safeParse (s : String) : Option String :=
  if 1 ≤ s.length then some s else none

/-- Embeds `LanguageSchema.safeParse` (src/logic.ts): `z.nativeEnum(LANGUAGE)`
accepts exactly the raw values "en", "ja", "es" (case-sensitive). -/
def LanguageSchema_safeParse (s : String) : Option Language :=
  if s = "en" then some .en
  else if s = "ja" then some .ja
  else if s = "es" then some .es
  else none

/-- Embeds `createGreeting` (src/logic.ts): validates the name with `NameSchema`,
returning `err` with the zod failure message if it is empty; otherwise
selects the message template by an exhaustive `ts-pattern` match on the
(language, time-of-day) pair and returns `ok` of the interpolated message. -/
def createGreeting (name : String) (lang : Language) (date : DateTime) :
    Except String String :=
  match NameSchema_safeParse name with
  | none => .error "Name cannot be empty"
  | some _ =>
    let timeOfDay := getTimeOfDay date
    let message :=
      match lang, timeOfDay with
      | .ja, .morning => "おはようございます、" ++ name ++ "さん！"
      | .ja, .day => "こんにちは、" ++ name ++ "さん！"
      | .ja, .evening => "こんばんは、" ++ name ++ "さん！"
      | .en, .morning => "Good morning, " ++ name ++ "!"
      | .en, .day => "Hello, " ++ name ++ "!"
      | .en, .evening => "Good evening, " ++ name ++ "!"
      | .es, .morning => "¡Buenos días, " ++ name ++ "!"
      | .es, .day => "¡Hola, " ++ name ++ "!"
      | .es, .evening => "¡Buenas noches, " ++ name ++ "!"
    .ok message

/-! ## CLI layer (`src/index.ts`) -/

/-- The settled result of the `from` call of a cmd-ts decoder (an `async`
function): it resolves to a value, rejects with a thrown `Error` message,
or — were the decoder to call `process.exit` — terminates the process. -/
inductive DecodeStep (α : Type)
  | ret (a : α)
  | thrown (msg : String)
  | exited (code : Nat)
deriving DecidableEq, Repr

/-- Embeds `LanguageType.from` (src/index.ts): runs `LanguageSchema.safeParse` on
the raw string; on failure it throws
`Invalid language: <str>. Allowed: en, ja, es` (the allowed list is
joining the `LANGUAGE` values with a comma and space); on success it resolves to the
decoded language. -/
def LanguageType_from (str : String) : DecodeStep Language :=
  match LanguageSchema_safeParse str with
  | none => .thrown ("Invalid language: " ++ str ++ ". Allowed: en, ja, es")
  | some l => .ret l

/-- The settled result of a `@clack/prompts` prompt as the code observes
it: either the user cancelled (`isCancel` is true) or a value came back.
For `askName`, the clack `validate` callback re-prompts on empty input, so a
real resolution is non-empty; the model does not need that bound. -/
inductive PromptAnswer (α : Type)
  | cancel
  | value (a : α)
deriving DecidableEq, Repr

/-- The result of running one of the interactive helpers: it either
returns a value to the handler or terminates the process. -/
inductive PromptStep (α : Type)
  | ret (a : α)
  | exited (code : Nat)
deriving DecidableEq, Repr

/-- Embeds `askName` (src/index.ts): shows the text prompt; if the answer is a
cancellation it calls `process.exit(0)`, otherwise it returns the string. -/
def askName (answer : PromptAnswer String) : PromptStep String :=
  match answer with
  | .cancel => .exited 0
  | .value s => .ret s

/-- Embeds `askLanguage` (src/index.ts): shows the select prompt; if the answer
is a cancellation it calls `process.exit(0)`, otherwise it returns the
chosen language. -/
def askLanguage (answer : PromptAnswer Language) : PromptStep Language :=
  match answer with
  | .cancel => .exited 0
  | .value l => .ret l

/-- The user-visible notifications the handler emits (colour formatting
dropped): `console.error`, `intro`, `spinner.succeed`, `spinner.warn`,
`outro`. -/
inductive Notification
  | errorLine (s : String)
  | introLine (s : String)
  | logSucceeded (s : String)
  | logWarned (s : String)
  | outroLine (s : String)
deriving DecidableEq, Repr

/-- How one invocation of the handler ends: an explicit `process.exit`
call, or falling off the end of the handler (after which Node exits 0). -/
inductive Outcome
  | exited (code : Nat)
  | completed
deriving DecidableEq, Repr

/-- One run of the handler: the notifications it emitted, in order, and
how it ended. -/
structure RunResult where
  notes : List Notification
  outcome : Outcome
deriving DecidableEq, Repr

/-- The collaborators one invocation interacts with: the settled answers
of the two prompts (consulted only when the corresponding prompt is
reached) and the settled result of `logToSystem(message)` — the
`effects.ts` wrapper around `execa` running `echo`, which resolves `ok` or,
if the subprocess fails, an `err` built by `Failed to log: <e>`. -/
structure PromptEnv where
  nameAnswer : PromptAnswer String
  langAnswer : PromptAnswer Language
  logResult : Except String Unit

/-- The tail of the handler (src/index.ts, from `const result =
createGreeting(...)` to the end), with the notifications already emitted
accumulated in `notes`: on a greeting error it prints `Error: <message>`
and calls `process.exit(1)`; otherwise it awaits `logToSystem`, reports
its outcome via the spinner (success or warning, never aborting), and
prints the message with `outro`, completing normally. -/
def handlerFinish (finalName : String) (finalLang : Language)
    (now : DateTime) (logResult : Except String Unit)
    (notes : List Notification) : RunResult :=
  match createGreeting finalName finalLang now with
  | .error e => ⟨notes ++ [.errorLine ("Error: " ++ e)], .exited 1⟩
  | .ok message =>
    let logNote :=
      match logResult with
      | .ok _ => Notification.logSucceeded "System log updated."
      | .error _ =>
        Notification.logWarned "Failed to update system log, but continuing."
    ⟨notes ++ [logNote, .outroLine message], .completed⟩

/-- The command `handler` (src/index.ts): when `--lang` was not supplied
(`langArg === undefined`) it shows the intro banner, prompts for the name
only when `nameArg` is falsy (for a string: empty), then prompts for the
language; a `process.exit` inside a helper ends the run there.  When
`--lang` was supplied, no prompt is shown.  Either way it then runs the
greeting-and-logging tail on the final name and language. -/
def handler (nameArg : String) (langArg : Option Language) (now : DateTime)
    (env : PromptEnv) : RunResult :=
  match langArg with
  | some l => handlerFinish nameArg l now env.logResult []
  | none =>
    let notes0 := [Notification.introLine (" " ++ APP_NAME ++ " ")]
    match (if nameArg = "" then askName env.nameAnswer else .ret nameArg) with
    | .exited c => ⟨notes0, .exited c⟩
    | .ret finalName =>
      match askLanguage env.langAnswer with
      | .exited c => ⟨notes0, .exited c⟩
      | .ret finalLang =>
        handlerFinish finalName finalLang now env.logResult notes0

/-- The exit code of the whole process for one run: the code of an
explicit `process.exit`, or 0 when the handler completes normally (the
`try`/`catch` of the entry point maps only an escaped exception to
`process.exit(1)`, and the handler model never throws). -/
def processExitCode (r : RunResult) : Nat :=
  match r.outcome with
  | .exited c => c
  | .completed => 0


/-! ## Helper lemmas -/

/-- A string other than the empty literal has length at least 1. -/
theorem length_pos_of_ne_empty (s : String) (h : s ≠ "") : 1 ≤ s.length := by
  rcases s with ⟨d⟩
  cases d with
  | nil => simp at h
  | cons a l => simp [String.length]

/-- A concatenation around a non-empty middle part is non-empty. -/
theorem concat_ne_empty (pre name post : String) (h : 1 ≤ name.length) :
    pre ++ name ++ post ≠ "" := by
  intro he
  have hl : (pre ++ name ++ post).length = 0 := by rw [he]; rfl
  simp [String.length_append] at hl
  omega

/-- The tail of the handler ends in `process.exit(1)` (greeting error) or
in normal completion; no other outcome is reachable there. -/
theorem handlerFinish_outcome (n : String) (l : Language) (now : DateTime)
    (lr : Except String Unit) (notes : List Notification) :
    (handlerFinish n l now lr notes).outcome = .exited 1 ∨
    (handlerFinish n l now lr notes).outcome = .completed := by
  unfold handlerFinish
  cases createGreeting n l now <;> simp

/-! ## Claims -/

/-- C1: for every timestamp, `getTimeOfDay` returns morning when the hour
is below 12, day when it is at least 12 and below 18, and evening when it
is at least 18. -/
theorem getTimeOfDay_spec (d : DateTime) :
    (getHours d < 12 → getTimeOfDay d = .morning) ∧
    (12 ≤ getHours d → getHours d < 18 → getTimeOfDay d = .day) ∧
    (18 ≤ getHours d → getTimeOfDay d = .evening) := by
  unfold getTimeOfDay
  refine ⟨fun h => ?_, fun h1 h2 => ?_, fun h => ?_⟩
  · simp [h]
  · rw [if_neg (by omega), if_pos h2]
  · rw [if_neg (by omega), if_neg (by omega)]

/-- Witness for C1 at hours 8, 13 and 21. -/
theorem getTimeOfDay_spec_witness :
    getTimeOfDay ⟨2025, 1, 1, 8, 30, 0⟩ = .morning ∧
    getTimeOfDay ⟨2025, 1, 1, 13, 0, 0⟩ = .day ∧
    getTimeOfDay ⟨2025, 1, 1, 21, 0, 0⟩ = .evening :=
  ⟨(getTimeOfDay_spec _).1 (by decide),
   (getTimeOfDay_spec _).2.1 (by decide) (by decide),
   (getTimeOfDay_spec _).2.2 (by decide)⟩

/-- C2: for every non-empty name, every language and every timestamp,
`createGreeting` returns a success whose message is non-empty and contains
the supplied name as a substring. -/
theorem createGreeting_ok (name : String) (h : name ≠ "")
    (lang : Language) (d : DateTime) :
    ∃ msg, createGreeting name lang d = .ok msg ∧ msg ≠ "" ∧
      ∃ pre post, msg = pre ++ name ++ post := by
  have hlen : 1 ≤ name.length := length_pos_of_ne_empty name h
  have hparse : NameSchema_safeParse name = some name := by
    simp [NameSchema_safeParse, hlen]
  cases lang <;> cases htod : getTimeOfDay d
  case en.morning =>
    exact ⟨"Good morning, " ++ name ++ "!",
      by simp [createGreeting, hparse, htod],
      concat_ne_empty _ _ _ hlen, "Good morning, ", "!", rfl⟩
  case en.day =>
    exact ⟨"Hello, " ++ name ++ "!",
      by simp [createGreeting, hparse, htod],
      concat_ne_empty _ _ _ hlen, "Hello, ", "!", rfl⟩
  case en.evening =>
    exact ⟨"Good evening, " ++ name ++ "!",
      by simp [createGreeting, hparse, htod],
      concat_ne_empty _ _ _ hlen, "Good evening, ", "!", rfl⟩
  case ja.morning =>
    exact ⟨"おはようございます、" ++ name ++ "さん！",
      by simp [createGreeting, hparse, htod],
      concat_ne_empty _ _ _ hlen, "おはようございます、", "さん！", rfl⟩
  case ja.day =>
    exact ⟨"こんにちは、" ++ name ++ "さん！",
      by simp [createGreeting, hparse, htod],
      concat_ne_empty _ _ _ hlen, "こんにちは、", "さん！", rfl⟩
  case ja.evening =>
    exact ⟨"こんばんは、" ++ name ++ "さん！",
      by simp [createGreeting, hparse, htod],
      concat_ne_empty _ _ _ hlen, "こんばんは、", "さん！", rfl⟩
  case es.morning =>
    exact ⟨"¡Buenos días, " ++ name ++ "!",
      by simp [createGreeting, hparse, htod],
      concat_ne_empty _ _ _ hlen, "¡Buenos días, ", "!", rfl⟩
  case es.day =>
    exact ⟨"¡Hola, " ++ name ++ "!",
      by simp [createGreeting, hparse, htod],
      concat_ne_empty _ _ _ hlen, "¡Hola, ", "!", rfl⟩
  case es.evening =>
    exact ⟨"¡Buenas noches, " ++ name ++ "!",
      by simp [createGreeting, hparse, htod],
      concat_ne_empty _ _ _ hlen, "¡Buenas noches, ", "!", rfl⟩

/-- Witness for C2 with name "Alice", English, a morning timestamp. -/
theorem createGreeting_ok_witness :
    ∃ msg, createGreeting "Alice" Language.en ⟨2025, 1, 1, 10, 0, 0⟩ =
        .ok msg ∧ msg ≠ "" ∧ ∃ pre post, msg = pre ++ "Alice" ++ post :=
  createGreeting_ok "Alice" (by decide) Language.en ⟨2025, 1, 1, 10, 0, 0⟩

/-- C3: for every language and timestamp, `createGreeting` on the empty
name returns a validation failure; and on any name it returns either a
success or a failure value (it is a total function, so it never throws). -/
theorem createGreeting_empty_name_fails (lang : Language) (d : DateTime) :
    createGreeting "" lang d = .error "Name cannot be empty" ∧
    ∀ name : String, (∃ m, createGreeting name lang d = .ok m) ∨
      (∃ e, createGreeting name lang d = .error e) := by
  constructor
  · rfl
  · intro name
    cases hres : createGreeting name lang d with
    | ok m => exact Or.inl ⟨m, rfl⟩
    | error e => exact Or.inr ⟨e, rfl⟩

/-- C4 counterexample: a cancellation at the language prompt terminates
the process with exit code 0, not 2, and a surfaced validation failure
(empty name with `--lang en` given) terminates with exit code 1, not 2. -/
theorem exit_code_counterexample :
    processExitCode (handler "Alice" none ⟨2025, 1, 1, 10, 0, 0⟩
        ⟨PromptAnswer.value "Bob", PromptAnswer.cancel, Except.ok ()⟩) = 0 ∧
    processExitCode (handler "" (some Language.en) ⟨2025, 1, 1, 10, 0, 0⟩
        ⟨PromptAnswer.cancel, PromptAnswer.cancel, Except.ok ()⟩) = 1 :=
  ⟨rfl, rfl⟩

/-- C4 as amended: exit code 2 is never produced; a cancellation at either
prompt exits with code 0, a surfaced validation failure exits with code 1,
and normal completion exits with code 0. -/
theorem exit_code_mapping (nameArg : String) (langArg : Option Language)
    (now : DateTime) (env : PromptEnv) :
    processExitCode (handler nameArg langArg now env) ≠ 2 ∧
    (langArg = none → nameArg = "" → env.nameAnswer = .cancel →
      processExitCode (handler nameArg langArg now env) = 0) ∧
    (langArg = none → env.nameAnswer ≠ .cancel → env.langAnswer = .cancel →
      processExitCode (handler nameArg langArg now env) = 0) ∧
    (∀ l, langArg = some l → nameArg = "" →
      processExitCode (handler nameArg langArg now env) = 1) ∧
    ((handler nameArg langArg now env).outcome = .completed →
      processExitCode (handler nameArg langArg now env) = 0) := by
  refine ⟨?_, ?_, ?_, ?_, fun h => by simp [processExitCode, h]⟩
  · cases langArg with
    | some l =>
      rcases handlerFinish_outcome nameArg l now env.logResult [] with h | h <;>
        simp [handler, processExitCode] <;> rw [h] <;> simp
    | none =>
      simp only [handler]
      by_cases hn : nameArg = ""
      · simp only [hn, if_pos rfl]
        cases env.nameAnswer with
        | cancel => simp [askName, processExitCode]
        | value s =>
          simp only [askName]
          cases env.langAnswer with
          | cancel => simp [askLanguage, processExitCode]
          | value l =>
            simp only [askLanguage]
            rcases handlerFinish_outcome s l now env.logResult
                [Notification.introLine (" " ++ APP_NAME ++ " ")] with h | h <;>
              simp [processExitCode] <;> rw [h] <;> simp
      · simp only [if_neg hn]
        cases env.langAnswer with
        | cancel => simp [askLanguage, processExitCode]
        | value l =>
          simp only [askLanguage]
          rcases handlerFinish_outcome nameArg l now env.logResult
              [Notification.introLine (" " ++ APP_NAME ++ " ")] with h | h <;>
            simp [processExitCode] <;> rw [h] <;> simp
  · intro h1 h2 h3
    subst h1; subst h2
    simp [handler, h3, askName, processExitCode]
  · intro h1 h2 h3
    subst h1
    by_cases hn : nameArg = ""
    · cases ha : env.nameAnswer with
      | cancel => exact absurd ha h2
      | value s =>
        simp [handler, hn, ha, askName, h3, askLanguage, processExitCode]
    · simp [handler, hn, h3, askLanguage, processExitCode]
  · intro l h1 h2
    subst h1; subst h2
    rfl

/-- Witness for C4 as amended: cancellation at the name prompt, then at
the language prompt, both exit 0; an empty name with `--lang ja` exits 1. -/
theorem exit_code_mapping_witness :
    processExitCode (handler "" none ⟨2025, 1, 1, 10, 0, 0⟩
      ⟨PromptAnswer.cancel, PromptAnswer.cancel, Except.ok ()⟩) = 0 ∧
    processExitCode (handler "Alice" none ⟨2025, 1, 1, 10, 0, 0⟩
      ⟨PromptAnswer.value "Bob", PromptAnswer.cancel, Except.ok ()⟩) = 0 ∧
    processExitCode (handler "" (some Language.ja) ⟨2025, 1, 1, 10, 0, 0⟩
      ⟨PromptAnswer.cancel, PromptAnswer.cancel, Except.ok ()⟩) = 1 :=
  ⟨(exit_code_mapping _ _ _ _).2.1 rfl rfl rfl,
   (exit_code_mapping _ _ _ _).2.2.1 rfl (by decide) rfl,
   (exit_code_mapping _ _ _ _).2.2.2.1 Language.ja rfl rfl⟩

/-- C5: the language decoder succeeds exactly on the case-sensitive raw
strings "en", "ja" and "es"; on any other input it fails, and the failure
message contains the enumeration of the allowed values "en, ja, es". -/
theorem LanguageType_from_spec (s : String) :
    ((∃ l, LanguageType_from s = .ret l) ↔
      (s = "en" ∨ s = "ja" ∨ s = "es")) ∧
    ((s ≠ "en" ∧ s ≠ "ja" ∧ s ≠ "es") →
      ∃ msg, LanguageType_from s = .thrown msg ∧
        ∃ pre, msg = pre ++ "en, ja, es") := by
  by_cases h1 : s = "en"
  · subst h1
    exact ⟨⟨fun _ => Or.inl rfl, fun _ => ⟨.en, rfl⟩⟩, fun h => absurd rfl h.1⟩
  by_cases h2 : s = "ja"
  · subst h2
    exact ⟨⟨fun _ => Or.inr (Or.inl rfl), fun _ => ⟨.ja, rfl⟩⟩,
      fun h => absurd rfl h.2.1⟩
  by_cases h3 : s = "es"
  · subst h3
    exact ⟨⟨fun _ => Or.inr (Or.inr rfl), fun _ => ⟨.es, rfl⟩⟩,
      fun h => absurd rfl h.2.2⟩
  · have hth : LanguageType_from s =
        .thrown ("Invalid language: " ++ s ++ ". Allowed: en, ja, es") := by
      simp [LanguageType_from, LanguageSchema_safeParse, h1, h2, h3]
    refine ⟨⟨fun ⟨l, hl⟩ => ?_, fun h => by tauto⟩,
      fun _ => ⟨_, hth, "Invalid language: " ++ s ++ ". Allowed: ", by
        simp [String.append_assoc]⟩⟩
    rw [hth] at hl
    exact absurd hl (by simp)

/-- Witness for C5: "en" decodes, "fr" fails with the enumerating message,
and the uppercase "EN" does not decode (case-sensitivity). -/
theorem LanguageType_from_spec_witness :
    (∃ l, LanguageType_from "en" = .ret l) ∧
    (∃ msg, LanguageType_from "fr" = .thrown msg ∧
      ∃ pre, msg = pre ++ "en, ja, es") ∧
    ¬(∃ l, LanguageType_from "EN" = .ret l) :=
  ⟨(LanguageType_from_spec "en").1.mpr (Or.inl rfl),
   (LanguageType_from_spec "fr").2 ⟨by decide, by decide, by decide⟩,
   fun hex => by
     rcases (LanguageType_from_spec "EN").1.mp hex with h | h | h <;>
       exact absurd h (by decide)⟩

/-- C6 counterexample: on the invalid input "fr" the language decoder does
not return a failure value — it throws (its promise rejects with an
`Error`), refuting "never as an exception / does not throw". -/
theorem LanguageType_from_throws_on_invalid :
    LanguageType_from "fr" =
      .thrown "Invalid language: fr. Allowed: en, ja, es" := rfl

/-- C6 as amended: for every input the language decoder either resolves to
a language or rejects by throwing (the failure channel the binder
catches); it never terminates the process, and on every input the schema
rejects it throws the user-facing message enumerating the allowed
values. -/
theorem LanguageType_from_total (s : String) :
    ((∃ l, LanguageType_from s = .ret l) ∨
      (∃ msg, LanguageType_from s = .thrown msg)) ∧
    (∀ c, LanguageType_from s ≠ .exited c) ∧
    (LanguageSchema_safeParse s = none →
      LanguageType_from s =
        .thrown ("Invalid language: " ++ s ++ ". Allowed: en, ja, es")) := by
  refine ⟨?_, ?_, fun hp => by rw [LanguageType_from, hp]⟩
  · cases hp : LanguageSchema_safeParse s with
    | none => exact Or.inr ⟨_, by rw [LanguageType_from, hp]⟩
    | some l => exact Or.inl ⟨l, by rw [LanguageType_from, hp]⟩
  · intro c
    cases hp : LanguageSchema_safeParse s with
    | none => rw [LanguageType_from, hp]; simp
    | some l => rw [LanguageType_from, hp]; simp

/-- Witness for C6 as amended at the invalid input "fr". -/
theorem LanguageType_from_total_witness :
    LanguageSchema_safeParse "fr" = none ∧
    LanguageType_from "fr" =
      .thrown ("Invalid language: " ++ "fr" ++ ". Allowed: en, ja, es") :=
  ⟨by decide, (LanguageType_from_total "fr").2.2 (by decide)⟩

/-- C7 counterexample: components other than the entry controller do
terminate the process — `askName` and `askLanguage` call `process.exit(0)`
on cancellation, and the handler calls `process.exit(1)` on a surfaced
validation failure. -/
theorem prompt_helpers_and_handler_exit :
    askName PromptAnswer.cancel = PromptStep.exited 0 ∧
    askLanguage PromptAnswer.cancel = PromptStep.exited 0 ∧
    (handler "" (some Language.en) ⟨2025, 1, 1, 10, 0, 0⟩
        ⟨PromptAnswer.cancel, PromptAnswer.cancel, Except.ok ()⟩).outcome =
      Outcome.exited 1 :=
  ⟨rfl, rfl, rfl⟩

/-- C7 as amended: each prompt helper terminates the process with exit
code 0 exactly on cancellation and otherwise returns its value; the
handler (with a language supplied) terminates with exit code 1 exactly on
an empty name and otherwise completes without terminating. -/
theorem process_exit_sites (a : PromptAnswer String)
    (b : PromptAnswer Language) (name : String) (lang : Language)
    (now : DateTime) (env : PromptEnv) :
    (a = .cancel → askName a = .exited 0) ∧
    (∀ s, a = .value s → askName a = .ret s) ∧
    (b = .cancel → askLanguage b = .exited 0) ∧
    (∀ l, b = .value l → askLanguage b = .ret l) ∧
    (name = "" → (handler name (some lang) now env).outcome = .exited 1) ∧
    (name ≠ "" → (handler name (some lang) now env).outcome = .completed) := by
  refine ⟨fun h => by rw [h]; rfl, fun s h => by rw [h]; rfl,
    fun h => by rw [h]; rfl, fun l h => by rw [h]; rfl,
    fun h => by rw [h]; rfl, fun hne => ?_⟩
  have hlen : 1 ≤ name.length := length_pos_of_ne_empty name hne
  have hparse : NameSchema_safeParse name = some name := by
    simp [NameSchema_safeParse, hlen]
  have hok : ∃ m, createGreeting name lang now = .ok m :=
    ⟨_, by rw [createGreeting, hparse]⟩
  obtain ⟨m, hm⟩ := hok
  simp [handler, handlerFinish, hm]

/-- Witness for C7 as amended at concrete prompt answers and names. -/
theorem process_exit_sites_witness :
    askName PromptAnswer.cancel = PromptStep.exited 0 ∧
    askName (PromptAnswer.value "Alice") = PromptStep.ret "Alice" ∧
    askLanguage PromptAnswer.cancel = PromptStep.exited 0 ∧
    (handler "" (some Language.es) ⟨2025, 1, 1, 10, 0, 0⟩
        ⟨PromptAnswer.cancel, PromptAnswer.cancel, Except.ok ()⟩).outcome =
      Outcome.exited 1 ∧
    (handler "Alice" (some Language.es) ⟨2025, 1, 1, 10, 0, 0⟩
        ⟨PromptAnswer.cancel, PromptAnswer.cancel, Except.ok ()⟩).outcome =
      Outcome.completed :=
  ⟨(process_exit_sites PromptAnswer.cancel PromptAnswer.cancel "Alice"
      Language.es ⟨2025, 1, 1, 10, 0, 0⟩
      ⟨PromptAnswer.cancel, PromptAnswer.cancel, Except.ok ()⟩).1 rfl,
   (process_exit_sites (PromptAnswer.value "Alice") PromptAnswer.cancel
      "Alice" Language.es ⟨2025, 1, 1, 10, 0, 0⟩
      ⟨PromptAnswer.cancel, PromptAnswer.cancel, Except.ok ()⟩).2.1
      "Alice" rfl,
   (process_exit_sites PromptAnswer.cancel PromptAnswer.cancel "Alice"
      Language.es ⟨2025, 1, 1, 10, 0, 0⟩
      ⟨PromptAnswer.cancel, PromptAnswer.cancel, Except.ok ()⟩).2.2.1 rfl,
   (process_exit_sites PromptAnswer.cancel PromptAnswer.cancel ""
      Language.es ⟨2025, 1, 1, 10, 0, 0⟩
      ⟨PromptAnswer.cancel, PromptAnswer.cancel, Except.ok ()⟩).2.2.2.2.1 rfl,
   (process_exit_sites PromptAnswer.cancel PromptAnswer.cancel "Alice"
      Language.es ⟨2025, 1, 1, 10, 0, 0⟩
      ⟨PromptAnswer.cancel, PromptAnswer.cancel, Except.ok ()⟩).2.2.2.2.2
      (by decide)⟩

/-- C8: once the greeting has been computed successfully, a failing
logging action only yields the warning notification; the run still
completes normally (exit code 0, same outcome as with a successful log)
and still prints the message. -/
theorem log_failure_still_completes (finalName msg emsg : String)
    (lang : Language) (now : DateTime) (notes : List Notification)
    (hok : createGreeting finalName lang now = .ok msg) :
    (handlerFinish finalName lang now (.error emsg) notes).outcome =
      .completed ∧
    processExitCode
      (handlerFinish finalName lang now (.error emsg) notes) = 0 ∧
    (handlerFinish finalName lang now (.error emsg) notes).notes =
      notes ++ [.logWarned "Failed to update system log, but continuing.",
        .outroLine msg] ∧
    (handlerFinish finalName lang now (.error emsg) notes).outcome =
      (handlerFinish finalName lang now (.ok ()) notes).outcome := by
  simp [handlerFinish, hok, processExitCode]

/-- Witness for C8 with "Alice", English, a morning timestamp and a
failing log action. -/
theorem log_failure_still_completes_witness :
    createGreeting "Alice" Language.en ⟨2025, 1, 1, 10, 0, 0⟩ =
      .ok "Good morning, Alice!" ∧
    (handlerFinish "Alice" Language.en ⟨2025, 1, 1, 10, 0, 0⟩
        (.error "boom") []).outcome = .completed ∧
    processExitCode (handlerFinish "Alice" Language.en ⟨2025, 1, 1, 10, 0, 0⟩
        (.error "boom") []) = 0 :=
  ⟨rfl,
   (log_failure_still_completes "Alice" "Good morning, Alice!" "boom"
      Language.en ⟨2025, 1, 1, 10, 0, 0⟩ [] rfl).1,
   (log_failure_still_completes "Alice" "Good morning, Alice!" "boom"
      Language.en ⟨2025, 1, 1, 10, 0, 0⟩ [] rfl).2.1⟩

/-- C9: a name consisting of a single space has length 1, so it passes the
"length at least 1" rule and `createGreeting` succeeds for every language
and timestamp. -/
theorem createGreeting_blank_name_succeeds (lang : Language) (d : DateTime) :
    (" " : String).length = 1 ∧ ∃ m, createGreeting " " lang d = .ok m := by
  have hparse : NameSchema_safeParse " " = some " " := by decide
  refine ⟨rfl, ?_⟩
  cases lang <;> cases htod : getTimeOfDay d <;>
    exact ⟨_, by rw [createGreeting, hparse]⟩

/-- C10: `createGreeting` depends on its timestamp only through the
hour-of-day: two timestamps with equal hour fields give equal results for
every name and language. -/
theorem createGreeting_hour_only (name : String) (lang : Language)
    (d1 d2 : DateTime) (h : d1.hour = d2.hour) :
    createGreeting name lang d1 = createGreeting name lang d2 := by
  have htod : getTimeOfDay d1 = getTimeOfDay d2 := by
    simp [getTimeOfDay, getHours, h]
  simp [createGreeting, htod]

/-- Witness for C10: same hour 9, different date, minutes and seconds. -/
theorem createGreeting_hour_only_witness :
    (DateTime.mk 2025 1 1 9 0 0).hour = (DateTime.mk 1999 12 31 9 59 59).hour ∧
    createGreeting "Alice" Language.ja ⟨2025, 1, 1, 9, 0, 0⟩ =
      createGreeting "Alice" Language.ja ⟨1999, 12, 31, 9, 59, 59⟩ :=
  ⟨rfl, createGreeting_hour_only "Alice" Language.ja _ _ rfl⟩


end HelloCli
